import Mathlib

/-!
Verification of the ownership-reconciliation and safe-cleanup subsystem of the
Conan Exiles database analyzer (`SQLite_Orphaned_Items_Analysis.py`, with the
guild-aware orphan query of `building_ownership_checker.py`).

The relational tables consumed by the analyzer are embedded as lists of rows;
SQL queries become list/Finset operations; the one `try/except` path the claims
depend on (the damage-detection query) is embedded as an `Except` value
dispatched on a schema flag.
-/

namespace ConanDb

/-- Row of the `item_inventory` table: `owner_id` (nullable), `inv_type`,
`template_id`. -/
structure Item where
  owner_id : Option ℤ
  inv_type : ℤ
  template_id : ℤ
  deriving DecidableEq

/-- Row of the character table (`characters`/`character`/`players`): the columns
the analyzer reads (`id`, `char_name`, `playerId`, `lastTimeOnline`, `isAlive`). -/
structure Character where
  id : ℤ
  char_name : String
  playerId : ℤ
  lastTimeOnline : ℤ
  isAlive : Bool
  deriving DecidableEq

/-- Row of the `buildings` table as read by `building_ownership_checker.py`:
`object_id` and `owner_id`. -/
structure Building where
  object_id : ℤ
  owner_id : ℤ
  deriving DecidableEq

/-- The database snapshot the analysis pass reads.  `actor_position` and
`guilds` are reduced to the id columns the queries project
(`SELECT id FROM actor_position`, join on `guilds.guildId`).
`charTableOk` embeds whether the character table has the
`char_name`/`playerId`/`lastTimeOnline`/`isAlive` columns that the
damage-detection query of `analyze_cleanup_damage` selects on: when a column is
absent the query raises and the `except` handler (lines 240-242) returns `[]`. -/
structure Db where
  characters : List Character
  actor_position : List ℤ
  item_inventory : List Item
  guilds : List ℤ
  buildings : List Building
  charTableOk : Bool
  deriving DecidableEq

/-- Personal inventory slot types (`self.personal_inventory_types`, line 46):
inventory, hotbar, equipment, loot bags. -/
def personal_inventory_types : Finset ℤ := {0, 1, 2, 3}

/-- External storage slot types (`self.external_storage_types`, line 47):
chests, crafting stations, vaults, pens, etc. -/
def external_storage_types : Finset ℤ :=
  {4, 5, 6, 7, 8, 9, 10, 11, 12, 13, 14, 15, 16, 17,
   18, 19, 20, 21, 22, 23, 24, 25, 26}

/-- Rows of `item_inventory` with `owner_id = cid`
(the per-character query `WHERE owner_id = ?`, lines 196-202). -/
def ownerItems (db : Db) (cid : ℤ) : List Item :=
  db.item_inventory.filter fun it => decide (it.owner_id = some cid)

/-- Result of `SELECT inv_type, COUNT(*) ... GROUP BY inv_type` over one
character's items (lines 196-204): one `(inv_type, item_count)` pair per
distinct `inv_type` (the SQL also sorts by `inv_type`; the order of the groups
is irrelevant to every consumer, which reads them as sets and sums). -/
def remaining_inventory (db : Db) (cid : ℤ) : List (ℤ × ℕ) :=
  let its := ownerItems db cid
  ((its.map (·.inv_type)).dedup).map fun t =>
    (t, its.countP fun it => decide (it.inv_type = t))

/-- One entry of the `affected_players` list built at lines 215-236. -/
structure AffectedPlayer where
  char_id : ℤ
  char_name : String
  player_id : ℤ
  last_online : ℤ
  total_items : ℕ
  has_personal_only : Bool
  missing_external : Bool
  inventory_types : List ℤ
  deriving DecidableEq

/-- Body of the per-character loop of `analyze_cleanup_damage`
(lines 194-236): compute the remaining inventory composition of one active
character and flag it (return `some`) when it has personal items but no
external storage and a non-zero total, or a completely empty inventory. -/
def mkAffected (db : Db) (c : Character) : Option AffectedPlayer :=
  let remaining := remaining_inventory db c.id
  let remaining_types := remaining.map (·.1)
  let has_personal_items := remaining_types.any fun t =>
    decide (t ∈ personal_inventory_types)
  let has_external_storage := remaining_types.any fun t =>
    decide (t ∈ external_storage_types)
  let total_items : ℕ := (remaining.map (·.2)).sum
  if has_personal_items && !has_external_storage && decide (0 < total_items) then
    some ⟨c.id, c.char_name, c.playerId, c.lastTimeOnline, total_items,
          true, true, remaining_types⟩
  else if total_items = 0 then
    some ⟨c.id, c.char_name, c.playerId, c.lastTimeOnline, 0,
          false, true, []⟩
  else
    none

/-- The damage-detection scan as a fallible query: the opening
`SELECT id, char_name, playerId, lastTimeOnline ... WHERE isAlive = 1`
(lines 185-189) raises when the character table lacks one of those columns
(`db.charTableOk = false`); otherwise every active character is examined by
the loop body `mkAffected`. -/
def damage_query (db : Db) : Except String (List AffectedPlayer) :=
  if db.charTableOk then
    .ok ((db.characters.filter (·.isAlive)).filterMap (mkAffected db))
  else
    .error "no such column"

/-- Function `analyze_cleanup_damage` (lines 181-242): run the scan, and on any
exception print a warning and return the empty list (lines 240-242). -/
def analyze_cleanup_damage (db : Db) : List AffectedPlayer :=
  match damage_query db with
  | .ok l => l
  | .error _ => []

/-- Valid character ids: `existing_chars = set(...)` over
`SELECT id FROM {char_table_name}` (lines 73-74).  Python sets are embedded as
duplicate-free lists; every consumer reads them through membership, length or
further set operations, so the (unspecified) iteration order never matters. -/
def existing_chars (db : Db) : List ℤ :=
  (db.characters.map (·.id)).dedup

/-- Valid structure ids: `SELECT id FROM actor_position` (lines 77-78). -/
def existing_structures (db : Db) : List ℤ :=
  db.actor_position.dedup

/-- Valid guild ids (the `guilds.guildId` column joined on by
`building_ownership_checker.py`; the item analyzer never queries this table). -/
def guild_ids (db : Db) : List ℤ :=
  db.guilds.dedup

/-- Observed owner references:
`SELECT DISTINCT owner_id FROM item_inventory WHERE owner_id IS NOT NULL`
(lines 81-82).  Note the query filters `NULL`, not the reserved reference `0`. -/
def all_owner_ids (db : Db) : List ℤ :=
  (db.item_inventory.filterMap (·.owner_id)).dedup

/-- The orphaned class:
`deleted_char_ids = all_owner_ids - existing_chars - existing_structures`
(line 85), i.e. the observed references in neither id set.  Guild ids are not
subtracted — the item analyzer never loads them. -/
def deleted_char_ids (db : Db) : List ℤ :=
  (all_owner_ids db).filter fun o =>
    decide (o ∉ existing_chars db) && decide (o ∉ existing_structures db)

/-- The structure class:
`structure_owned_items = all_owner_ids & existing_structures` (line 86). -/
def structure_owned_refs (db : Db) : List ℤ :=
  (all_owner_ids db).filter fun o => decide (o ∈ existing_structures db)

/-- The active-character class of the classification: the observed references
that are character ids.  The source never binds this set to a variable, but it
is the class complementary to lines 85-86 (an observed reference that is a
character id is neither `deleted` nor counted as structure-only). -/
def char_owned_refs (db : Db) : List ℤ :=
  (all_owner_ids db).filter fun o => decide (o ∈ existing_chars db)

/-- Modelled from the spec: the `Guild` variant of the spec's `OwnershipClass`
partition (§3, §4.2).  `SQLite_Orphaned_Items_Analysis.py` computes no guild
class at all; this definition exists only to state the four-way partition claim
against the code. -/
def spec_guild_owned_refs (db : Db) : List ℤ :=
  (all_owner_ids db).filter fun o => decide (o ∈ guild_ids db)

/-- Items whose owner is a truly-orphaned reference.  `total_orphaned_items`
(line 158) sums, over every id of `deleted_char_ids`, the per-id
`COUNT(*)` of the query at lines 94-104; that total is the number of
`item_inventory` rows whose `owner_id` lies in `deleted_char_ids`. -/
def total_orphaned_items (db : Db) : ℕ :=
  db.item_inventory.countP fun it =>
    match it.owner_id with
    | some o => decide (o ∈ deleted_char_ids db)
    | none => false

/-- Contiguous-range scan state of `analyze_id_patterns` (lines 252-271):
`(s, e)` is the open range accumulator (`start`, `end`), and the remaining
sorted ids are folded one by one — an id equal to `end + 1` extends the open
range, anything else closes it and opens a fresh singleton range. -/
def scanRanges : ℤ → ℤ → List ℤ → List (ℤ × ℤ)
  | s, e, [] => [(s, e)]
  | s, e, x :: xs =>
    if x = e + 1 then scanRanges s x xs else (s, e) :: scanRanges x x xs

/-- Full contiguous-range decomposition of a sorted id list
(`ranges` at lines 252-271; a range printed as `"start"` or `"start-end"` is
embedded as the pair `(start, end)`). -/
def findRanges : List ℤ → List (ℤ × ℤ)
  | [] => []
  | x :: xs => scanRanges x x xs

/-- Set of ids covered by a range list (each `(s, e)` covers the inclusive
interval `[s, e]`). -/
def rangeSet : List (ℤ × ℤ) → Finset ℤ
  | [] => ∅
  | p :: ps => Finset.Icc p.1 p.2 ∪ rangeSet ps

/-- The dictionary returned by `analyze_id_patterns` for non-empty input
(lines 277-283). -/
structure IdPatterns where
  min_deleted_id : ℤ
  max_deleted_id : ℤ
  id_ranges : List (ℤ × ℤ)
  total_ranges : ℕ
  appears_sequential : Bool
  deriving DecidableEq

/-- Range analysis over the already-sorted id list (`sorted_ids`, line 249).
For non-empty input the minimum is the head and the maximum the last element
of the sorted list (lines 274-275 compute `min`/`max` of the set);
`id_ranges` keeps only the first 10 ranges (`ranges[:10]`, line 280); and
`appears_sequential` is `len(ranges) < len(deleted_ids) / 10` (line 282,
Python true division, embedded exactly over `ℚ`). -/
def analyzeSorted : List ℤ → Option IdPatterns
  | [] => none
  | x :: xs =>
    let r := findRanges (x :: xs)
    some { min_deleted_id := x
           max_deleted_id := (x :: xs).getLast (List.cons_ne_nil x xs)
           id_ranges := r.take 10
           total_ranges := r.length
           appears_sequential :=
             decide ((r.length : ℚ) < ((x :: xs).length : ℚ) / 10) }

/-- Function `analyze_id_patterns` (lines 244-283): empty input returns the empty
dictionary (line 246-247, embedded as `none`); otherwise the ids are sorted
(`sorted_ids = sorted(deleted_ids)`, line 249) and scanned.  The input is the
duplicate-free list embedding of the Python id set. -/
def analyze_id_patterns (ids : List ℤ) : Option IdPatterns :=
  analyzeSorted (List.insertionSort (· ≤ ·) ids)

/-- Consumer-side read of the `id_ranges` key: for the empty dictionary,
`analysis.get('id_ranges', {})` (line 353) and the `if analysis.get('id_ranges')`
guard (line 575) behave as an absent/empty range list. -/
def reported_ranges : Option IdPatterns → List (ℤ × ℤ)
  | none => []
  | some p => p.id_ranges

/-- Consumer-side read of the `appears_sequential` key:
`analysis.get('id_ranges', {}).get('appears_sequential')` (line 353) is falsy
when the pattern dictionary is empty. -/
def reported_sequential : Option IdPatterns → Bool
  | none => false
  | some p => p.appears_sequential

/-- The analysis dictionary assembled at lines 156-176, restricted to the keys
any claim consumes.  `structure_owned_items` is `len(structure_owned_items)`
(line 166) — a count of distinct owner references, not of item rows. -/
structure Analysis where
  total_deleted_characters : ℕ
  total_orphaned_items : ℕ
  existing_characters : ℕ
  existing_structures : ℕ
  structure_owned_items : ℕ
  affected_active_players : List AffectedPlayer
  cleanup_damage_detected : Bool
  id_ranges : Option IdPatterns
  deriving DecidableEq

/-- Function `analyze_orphaned_items` (lines 54-176), success path.  The table-existence
guards of lines 61-70 are satisfied by construction (`Db` always carries the
item and character tables); `cleanup_damage_detected` is
`len(affected_active_players) > 0` (line 169). -/
def analyze_orphaned_items (db : Db) : Analysis :=
  let affected := analyze_cleanup_damage db
  { total_deleted_characters := (deleted_char_ids db).length
    total_orphaned_items := total_orphaned_items db
    existing_characters := (existing_chars db).length
    existing_structures := (existing_structures db).length
    structure_owned_items := (structure_owned_refs db).length
    affected_active_players := affected
    cleanup_damage_detected := decide (0 < affected.length)
    id_ranges := analyze_id_patterns (deleted_char_ids db) }

/-- Risk tier of a cleanup action.  The source encodes the tier in the title
text (the menus test `"DANGEROUS" in cmd['title']`, lines 655, 706, 742, 757)
and marks non-offerable actions with a `warning` key; the damage-control entry
generated at lines 375-381 is the plan-blocking action. -/
inductive Risk where
  | safe
  | conservative
  | dangerous
  | blocked
  deriving DecidableEq

/-- One entry of the list built by `generate_safe_cleanup_commands`
(lines 370-478).  The presentational `sql` text is not embedded;
`estimated_row_count` is the row count interpolated into the `impact` string
(`some` only for the Safe action, line 427, and the Dangerous action,
line 474). -/
structure CleanupCommand where
  title : String
  description : String
  tier : Risk
  estimated_row_count : Option ℕ
  warning : Option String
  deriving DecidableEq

/-- The Blocked damage-control action (lines 375-381). -/
def damage_control_command : CleanupCommand :=
  { title := "DAMAGE CONTROL - DO NOT RUN CLEANUP YET"
    description := "Active players have been affected by previous cleanup"
    tier := .blocked
    estimated_row_count := none
    warning := some "Restore from backup or compensate players first" }

/-- The informational Safe action for a healthy database (lines 387-400). -/
def no_cleanup_needed_command : CleanupCommand :=
  { title := "NO CLEANUP NEEDED - DATABASE IS HEALTHY!"
    description := "No truly orphaned items found. All items belong to active characters or structures."
    tier := .safe
    estimated_row_count := none
    warning := none }

/-- The recommended Safe action (lines 411-428); its impact line names
`total_orphaned_items` as the row count removed. -/
def safe_command (a : Analysis) : CleanupCommand :=
  { title := "RECOMMENDED: Truly Orphaned Items Only"
    description := "Only delete items from owner IDs that exist in neither characters nor actor_position tables"
    tier := .safe
    estimated_row_count := some a.total_orphaned_items
    warning := none }

/-- The Conservative action (lines 430-442); its impact line carries no row
count. -/
def conservative_command : CleanupCommand :=
  { title := "CONSERVATIVE: Personal Items from Deleted Characters Only"
    description := "Delete only personal inventory items from truly deleted characters"
    tier := .conservative
    estimated_row_count := none
    warning := none }

/-- The Dangerous, education-only action (lines 445-476); its impact line names
`structure_owned_items` — the count of structure-owned references — as the row
count it would wrongly destroy. -/
def dangerous_command (a : Analysis) : CleanupCommand :=
  { title := "DANGEROUS: Not Owned by Characters (DESTROYS CHESTS)"
    description := "This is the flawed logic that has destroyed countless server databases"
    tier := .dangerous
    estimated_row_count := some a.structure_owned_items
    warning := some "DO NOT USE - This approach has destroyed countless Conan Exiles servers!" }

/-- Function `generate_safe_cleanup_commands` (lines 370-478): damage detected → only
the damage-control entry (early return, line 383); no truly orphaned items →
only the healthy entry (early return, line 401); otherwise the Safe,
Conservative and Dangerous entries in that order. -/
def generate_safe_cleanup_commands (a : Analysis) : List CleanupCommand :=
  if a.cleanup_damage_detected then
    [damage_control_command]
  else if a.total_orphaned_items = 0 then
    [no_cleanup_needed_command]
  else
    [safe_command a, conservative_command, dangerous_command a]

/-- Owner references observed in the `buildings` table
(`building_ownership_checker.py`). -/
def building_owner_refs (db : Db) : List ℤ :=
  (db.buildings.map (·.owner_id)).dedup

/-- Building rows the orphan queries of `building_ownership_checker.py`
(lines 130-137 and 199-210) count: owner joins neither `characters.id` nor
`guilds.guildId` (`c.id IS NULL AND g.guildId IS NULL`) and is not the
reserved reference `0` (`b.owner_id != 0`). -/
def building_orphan_rows (db : Db) : List Building :=
  db.buildings.filter fun b =>
    decide (b.owner_id ∉ existing_chars db) &&
    decide (b.owner_id ∉ guild_ids db) &&
    decide (b.owner_id ≠ 0)

/-- Distinct owner references of the orphaned building rows (the grouped owner
ids of lines 199-210). -/
def building_orphan_refs (db : Db) : List ℤ :=
  ((building_orphan_rows db).map (·.owner_id)).dedup

/-- States of the interactive cleanup sequence
(`run_interactive_cleanup_menu`, lines 689-734, and
`show_cleanup_details_and_execute`, lines 736-786): the option menu, the
details/execution prompt for one selected command, the call into
`execute_cleanup_command` (line 778), and the exited loop. -/
inductive MenuState where
  | menu
  | details (c : CleanupCommand)
  | executing (c : CleanupCommand)
  | exited
  deriving DecidableEq

/-- Initial state of the interactive sequence: when damage was detected the
menu refuses to start (lines 691-694). -/
def menu_init (a : Analysis) : MenuState :=
  if a.cleanup_damage_detected then .exited else .menu

/-- One operator input applied to the interactive sequence, as the parsed
number the prompts read.  From the menu (lines 712-726): `0` exits; a number
selecting a command with a `warning` key is refused (line 722-724); selecting
the Dangerous command shows its details but `show_cleanup_details_and_execute`
returns before offering execution (lines 757-760); any other valid selection
reaches the execution prompt.  From the details prompt (lines 774-786): `1`
calls `execute_cleanup_command`, `2` saves the SQL to a file, `3` returns, and
anything else re-prompts.  After the execution routine returns, control is back
in the menu loop. -/
def menu_step (cmds : List CleanupCommand) : MenuState → ℕ → MenuState
  | .menu, 0 => .exited
  | .menu, n + 1 =>
    match cmds[n]? with
    | some c =>
      if c.warning.isSome then .menu
      else if c.tier = .dangerous then .menu
      else .details c
    | none => .menu
  | .details c, n =>
    if n = 1 then .executing c
    else if n = 2 then .menu
    else if n = 3 then .menu
    else .details c
  | .executing _, _ => .menu
  | .exited, _ => .exited

/-- The interactive sequence driven by a list of operator inputs, over the plan
generated for `a`. -/
def menu_run (a : Analysis) (inputs : List ℕ) : MenuState :=
  inputs.foldl (menu_step (generate_safe_cleanup_commands a)) (menu_init a)

/-- Safety invariant of the interactive sequence: a details/execution prompt is
only ever open on a non-Dangerous command, and once damage was detected the
sequence never leaves the refused/exited state. -/
def menuInv (a : Analysis) : MenuState → Prop
  | .menu => a.cleanup_damage_detected = false
  | .details c => a.cleanup_damage_detected = false ∧ c.tier ≠ .dangerous
  | .executing c => a.cleanup_damage_detected = false ∧ c.tier ≠ .dangerous
  | .exited => True

/-- Example database in which id `5` is both a character id and a structure id,
and an item row carries the reserved owner reference `0`. -/
def exampleDbOverlap : Db :=
  { characters := [⟨5, "Bren", 21, 400, true⟩]
    actor_position := [5]
    item_inventory := [⟨some 0, 0, 1⟩, ⟨some 5, 0, 2⟩]
    guilds := []
    buildings := []
    charTableOk := true }

/-- Example database in which owner reference `7` is a valid guild id but
neither a character id nor a structure id. -/
def exampleDbGuild : Db :=
  { characters := []
    actor_position := []
    item_inventory := [⟨some 7, 4, 3⟩]
    guilds := [7]
    buildings := [⟨900, 7⟩]
    charTableOk := true }

/-- Example database with one active character holding only personal-slot
items (flagged by the damage detector) and one orphaned item row. -/
def exampleDbDamaged : Db :=
  { characters := [⟨1, "Ana", 11, 500, true⟩]
    actor_position := [100]
    item_inventory := [⟨some 1, 0, 42⟩, ⟨some 100, 4, 43⟩, ⟨some 999, 0, 44⟩]
    guilds := []
    buildings := []
    charTableOk := true }

/-- The affected-player record the damage detector produces for the character
of `exampleDbDamaged`. -/
def examplePlayerDamaged : AffectedPlayer :=
  ⟨1, "Ana", 11, 500, 1, true, true, [0]⟩

/-- Example database with an undamaged active character (personal and external
storage both present), one structure-owned item and one orphaned item. -/
def exampleDbOrphans : Db :=
  { characters := [⟨1, "Ana", 11, 500, true⟩]
    actor_position := [100]
    item_inventory := [⟨some 1, 0, 42⟩, ⟨some 1, 4, 45⟩, ⟨some 100, 4, 43⟩,
                       ⟨some 999, 0, 44⟩]
    guilds := []
    buildings := []
    charTableOk := true }

/-- Example healthy database: no orphaned references and no damaged player. -/
def exampleDbHealthy : Db :=
  { characters := [⟨1, "Ana", 11, 500, true⟩]
    actor_position := [100]
    item_inventory := [⟨some 1, 0, 42⟩, ⟨some 1, 4, 45⟩, ⟨some 100, 4, 43⟩]
    guilds := []
    buildings := []
    charTableOk := true }

/-- Example database whose character table lacks the columns the
damage-detection query needs (`charTableOk = false`), with an orphaned item. -/
def exampleDbNoSchema : Db :=
  { characters := [⟨1, "Ana", 11, 500, true⟩]
    actor_position := [100]
    item_inventory := [⟨some 1, 0, 42⟩, ⟨some 100, 4, 43⟩, ⟨some 999, 0, 44⟩]
    guilds := []
    buildings := []
    charTableOk := false }

/-! Helper lemmas shared by the claim theorems. -/

theorem mem_existing_chars {db : Db} {a : ℤ} :
    a ∈ existing_chars db ↔ ∃ c ∈ db.characters, c.id = a := by
  simp [existing_chars, List.mem_dedup]

theorem mem_existing_structures {db : Db} {a : ℤ} :
    a ∈ existing_structures db ↔ a ∈ db.actor_position := by
  simp [existing_structures, List.mem_dedup]

theorem mem_guild_ids {db : Db} {a : ℤ} :
    a ∈ guild_ids db ↔ a ∈ db.guilds := by
  simp [guild_ids, List.mem_dedup]

theorem mem_all_owner_ids {db : Db} {a : ℤ} :
    a ∈ all_owner_ids db ↔ ∃ it ∈ db.item_inventory, it.owner_id = some a := by
  simp [all_owner_ids, List.mem_dedup, List.mem_filterMap]

theorem mem_deleted_char_ids {db : Db} {a : ℤ} :
    a ∈ deleted_char_ids db ↔
      a ∈ all_owner_ids db ∧ a ∉ existing_chars db ∧ a ∉ existing_structures db := by
  simp [deleted_char_ids, List.mem_filter, and_assoc]

theorem mem_structure_owned_refs {db : Db} {a : ℤ} :
    a ∈ structure_owned_refs db ↔
      a ∈ all_owner_ids db ∧ a ∈ existing_structures db := by
  simp [structure_owned_refs, List.mem_filter]

theorem mem_char_owned_refs {db : Db} {a : ℤ} :
    a ∈ char_owned_refs db ↔ a ∈ all_owner_ids db ∧ a ∈ existing_chars db := by
  simp [char_owned_refs, List.mem_filter]

theorem mem_building_owner_refs {db : Db} {a : ℤ} :
    a ∈ building_owner_refs db ↔ ∃ b ∈ db.buildings, b.owner_id = a := by
  simp [building_owner_refs, List.mem_dedup]

theorem mem_building_orphan_refs {db : Db} {a : ℤ} :
    a ∈ building_orphan_refs db ↔
      (∃ b ∈ db.buildings, b.owner_id = a)
        ∧ a ∉ existing_chars db ∧ a ∉ guild_ids db ∧ a ≠ 0 := by
  simp only [building_orphan_refs, building_orphan_rows, List.mem_dedup,
    List.mem_map, List.mem_filter, Bool.and_eq_true, decide_eq_true_eq]
  constructor
  · rintro ⟨b, hmem, rfl⟩
    exact ⟨⟨b, hmem.1, rfl⟩, hmem.2.1.1, hmem.2.1.2, hmem.2.2⟩
  · rintro ⟨⟨b, hb, rfl⟩, hc, hg, h0⟩
    exact ⟨b, ⟨hb, ⟨hc, hg⟩, h0⟩, rfl⟩

theorem decide_rat_lt_div_ten (a b : ℕ) :
    decide ((a : ℚ) < (b : ℚ) / 10) = decide (10 * a < b) := by
  simp only [decide_eq_decide]
  rw [lt_div_iff₀ (by norm_num : (0:ℚ) < 10)]
  constructor
  · intro h
    by_contra hc
    push_neg at hc
    have hq : (b : ℚ) ≤ 10 * a := by exact_mod_cast hc
    linarith
  · intro h
    have hq : (10 * a : ℚ) < (b : ℚ) := by exact_mod_cast h
    linarith

theorem scanRanges_head_fst (s e : ℤ) (l : List ℤ) :
    (scanRanges s e l).head?.map Prod.fst = some s := by
  induction l generalizing s e with
  | nil => simp [scanRanges]
  | cons x xs ih =>
    simp only [scanRanges]
    split
    · exact ih s x
    · simp

theorem scanRanges_bounds (l : List ℤ) :
    ∀ s e : ℤ, s ≤ e → ∀ p ∈ scanRanges s e l, p.1 ≤ p.2 := by
  induction l with
  | nil =>
    intro s e hse p hp
    simp only [scanRanges, List.mem_singleton] at hp
    simpa [hp] using hse
  | cons x xs ih =>
    intro s e hse p hp
    simp only [scanRanges] at hp
    split at hp
    · next hxe => exact ih s x (by omega) p hp
    · next hxe =>
      rcases List.mem_cons.mp hp with h | h
      · simpa [h] using hse
      · exact ih x x le_rfl p h

theorem scanRanges_chain (l : List ℤ) :
    ∀ s e : ℤ, (∀ x ∈ l, e < x) → l.Chain' (· < ·) →
      (scanRanges s e l).Chain' (fun p q => p.2 + 1 < q.1) := by
  induction l with
  | nil =>
    intro s e _ _
    simp [scanRanges]
  | cons x xs ih =>
    intro s e hgt hch
    have hx : e < x := hgt x (List.mem_cons_self x xs)
    have hxs : ∀ y ∈ xs, x < y := by
      intro y hy
      exact (List.pairwise_cons.mp (List.chain'_iff_pairwise.mp hch)).1 y hy
    have hch' : xs.Chain' (· < ·) := hch.tail
    simp only [scanRanges]
    split
    · next hxe => exact ih s x hxs hch'
    · next hxe =>
      rw [List.chain'_cons']
      refine ⟨?_, ih x x hxs hch'⟩
      intro q hq
      have hhead := scanRanges_head_fst x x xs
      rw [hq] at hhead
      simp only [Option.map_some', Option.some.injEq] at hhead
      simp only [hhead]
      omega

theorem scanRanges_rangeSet (l : List ℤ) :
    ∀ s e : ℤ, s ≤ e → (∀ x ∈ l, e < x) → l.Chain' (· < ·) →
      rangeSet (scanRanges s e l) = Finset.Icc s e ∪ l.toFinset := by
  induction l with
  | nil =>
    intro s e _ _ _
    simp [scanRanges, rangeSet]
  | cons x xs ih =>
    intro s e hse hgt hch
    have hx : e < x := hgt x (List.mem_cons_self x xs)
    have hxs : ∀ y ∈ xs, x < y := by
      intro y hy
      exact (List.pairwise_cons.mp (List.chain'_iff_pairwise.mp hch)).1 y hy
    have hch' : xs.Chain' (· < ·) := hch.tail
    simp only [scanRanges]
    split
    · next hxe =>
      rw [ih s x (by omega) hxs hch']
      ext a
      simp only [Finset.mem_union, Finset.mem_Icc, List.toFinset_cons,
        Finset.mem_insert, List.mem_toFinset]
      by_cases hm : a ∈ xs
      · simp [hm]
      · simp only [hm, or_false]
        omega
    · next hxe =>
      have hgt' : e + 1 < x := by omega
      simp only [rangeSet]
      rw [ih x x le_rfl hxs hch']
      ext a
      simp only [Finset.mem_union, Finset.mem_Icc, List.toFinset_cons,
        Finset.mem_insert, List.mem_toFinset]
      by_cases hm : a ∈ xs
      · simp [hm]
      · simp only [hm, or_false]
        omega

theorem findRanges_spec (l : List ℤ) (hch : l.Chain' (· < ·)) :
    rangeSet (findRanges l) = l.toFinset
    ∧ (findRanges l).Chain' (fun p q => p.2 + 1 < q.1)
    ∧ ∀ p ∈ findRanges l, p.1 ≤ p.2 := by
  cases l with
  | nil => simp [findRanges, rangeSet]
  | cons x xs =>
    have hxs : ∀ y ∈ xs, x < y := by
      intro y hy
      exact (List.pairwise_cons.mp (List.chain'_iff_pairwise.mp hch)).1 y hy
    refine ⟨?_, scanRanges_chain xs x x hxs hch.tail,
      scanRanges_bounds xs x x le_rfl⟩
    rw [show findRanges (x :: xs) = scanRanges x x xs from rfl,
      scanRanges_rangeSet xs x x le_rfl hxs hch.tail]
    ext a
    simp only [Finset.mem_union, Finset.mem_Icc, List.toFinset_cons,
      Finset.mem_insert, List.mem_toFinset]
    by_cases hm : a ∈ xs
    · simp [hm]
    · simp only [hm, or_false]
      omega

theorem insertionSort_chain_lt (ids : List ℤ) (hnd : ids.Nodup) :
    (List.insertionSort (· ≤ ·) ids).Chain' (· < ·) := by
  have hperm := List.perm_insertionSort (· ≤ ·) ids
  have hnd' : (List.insertionSort (· ≤ ·) ids).Nodup := hperm.nodup_iff.mpr hnd
  have hs : (List.insertionSort (· ≤ ·) ids).Sorted (· ≤ ·) :=
    List.sorted_insertionSort (· ≤ ·) ids
  exact (hs.lt_of_le hnd').chain'

theorem remaining_inventory_fst (db : Db) (cid : ℤ) :
    (remaining_inventory db cid).map (·.1)
      = ((ownerItems db cid).map (·.inv_type)).dedup := by
  unfold remaining_inventory
  rw [List.map_map]
  exact List.map_id _

theorem remaining_inventory_total (db : Db) (cid : ℤ) :
    ((remaining_inventory db cid).map (·.2)).sum = (ownerItems db cid).length := by
  have hmap : (remaining_inventory db cid).map (·.2)
      = (((ownerItems db cid).map (·.inv_type)).dedup).map
          (fun t => ((ownerItems db cid).map (·.inv_type)).count t) := by
    unfold remaining_inventory
    rw [List.map_map]
    congr 1
    funext t
    show (ownerItems db cid).countP (fun it => decide (it.inv_type = t))
        = ((ownerItems db cid).map (·.inv_type)).count t
    rw [show ((ownerItems db cid).map (·.inv_type)).count t
        = ((ownerItems db cid).map (·.inv_type)).countP (fun y => decide (y = t))
      from rfl]
    rw [List.countP_map]
    rfl
  rw [hmap, List.sum_map_count_dedup_eq_length, List.length_map]

theorem any_dedup_map_mem (its : List Item) (P : Finset ℤ) :
    (((its.map (·.inv_type)).dedup).any fun t => decide (t ∈ P)) = true
      ↔ ∃ it ∈ its, it.inv_type ∈ P := by
  simp only [List.any_eq_true, List.mem_dedup, List.mem_map, decide_eq_true_eq]
  constructor
  · rintro ⟨t, ⟨it, hit, rfl⟩, hP⟩
    exact ⟨it, hit, hP⟩
  · rintro ⟨it, hit, hP⟩
    exact ⟨it.inv_type, ⟨it, hit, rfl⟩, hP⟩

theorem mkAffected_isSome_iff (db : Db) (c : Character) :
    (mkAffected db c).isSome = true ↔
      ((∃ it ∈ ownerItems db c.id, it.inv_type ∈ personal_inventory_types)
        ∧ ¬(∃ it ∈ ownerItems db c.id, it.inv_type ∈ external_storage_types)
        ∧ 0 < (ownerItems db c.id).length)
      ∨ (ownerItems db c.id).length = 0 := by
  have hp : (((remaining_inventory db c.id).map (·.1)).any fun t =>
        decide (t ∈ personal_inventory_types)) = true
      ↔ ∃ it ∈ ownerItems db c.id, it.inv_type ∈ personal_inventory_types := by
    rw [remaining_inventory_fst]
    exact any_dedup_map_mem _ _
  have he : (((remaining_inventory db c.id).map (·.1)).any fun t =>
        decide (t ∈ external_storage_types)) = true
      ↔ ∃ it ∈ ownerItems db c.id, it.inv_type ∈ external_storage_types := by
    rw [remaining_inventory_fst]
    exact any_dedup_map_mem _ _
  have htot := remaining_inventory_total db c.id
  unfold mkAffected
  dsimp only
  split
  · next hcond =>
    simp only [Option.isSome_some, true_iff]
    rw [Bool.and_eq_true, Bool.and_eq_true] at hcond
    obtain ⟨⟨hP, hE⟩, hT⟩ := hcond
    left
    refine ⟨hp.mp hP, ?_, ?_⟩
    · intro hex
      rw [Bool.not_eq_true'] at hE
      rw [he.symm] at hex
      rw [hE] at hex
      exact Bool.false_ne_true hex
    · rw [← htot]
      exact of_decide_eq_true hT
  · next hcond =>
    split
    · next hzero =>
      simp only [Option.isSome_some, true_iff]
      right
      rw [← htot]
      exact hzero
    · next hzero =>
      simp only [Option.isSome_none, Bool.false_eq_true, false_iff]
      intro hor
      rcases hor with ⟨hPx, hEx, hTx⟩ | hZx
      · apply hcond
        rw [Bool.and_eq_true, Bool.and_eq_true]
        refine ⟨⟨hp.mpr hPx, ?_⟩, ?_⟩
        · rw [Bool.not_eq_true']
          rw [← Bool.not_eq_true]
          intro hEb
          exact hEx (he.mp hEb)
        · rw [decide_eq_true_eq, htot]
          exact hTx
      · apply hzero
        rw [htot]
        exact hZx

theorem analyze_cleanup_damage_ok (db : Db) (hok : db.charTableOk = true) :
    analyze_cleanup_damage db
      = (db.characters.filter (·.isAlive)).filterMap (mkAffected db) := by
  unfold analyze_cleanup_damage damage_query
  rw [hok]
  simp

theorem detected_false_of_no_damage (db : Db)
    (h : analyze_cleanup_damage db = []) :
    (analyze_orphaned_items db).cleanup_damage_detected = false := by
  simp [analyze_orphaned_items, h]

theorem detected_true_of_damage (db : Db) (p : AffectedPlayer)
    (hp : p ∈ analyze_cleanup_damage db) :
    (analyze_orphaned_items db).cleanup_damage_detected = true := by
  simp only [analyze_orphaned_items, decide_eq_true_eq]
  exact List.length_pos.mpr (List.ne_nil_of_mem hp)

theorem total_orphaned_pos (db : Db) (h : deleted_char_ids db ≠ []) :
    0 < total_orphaned_items db := by
  obtain ⟨o, ho⟩ := List.exists_mem_of_ne_nil _ h
  have hall : o ∈ all_owner_ids db := (mem_deleted_char_ids.mp ho).1
  obtain ⟨it, hit, howner⟩ := mem_all_owner_ids.mp hall
  unfold total_orphaned_items
  refine List.countP_pos_iff.mpr ⟨it, hit, ?_⟩
  rw [howner]
  simpa using ho

theorem total_orphaned_eq_zero (db : Db) (h : deleted_char_ids db = []) :
    total_orphaned_items db = 0 := by
  unfold total_orphaned_items
  refine List.countP_eq_zero.mpr ?_
  intro it _
  cases howner : it.owner_id with
  | none => simp
  | some o => simp [h]

theorem plan_eq_three (db : Db) (h1 : deleted_char_ids db ≠ [])
    (h2 : analyze_cleanup_damage db = []) :
    generate_safe_cleanup_commands (analyze_orphaned_items db)
      = [safe_command (analyze_orphaned_items db), conservative_command,
         dangerous_command (analyze_orphaned_items db)] := by
  have hd := detected_false_of_no_damage db h2
  have ht := total_orphaned_pos db h1
  have htt : (analyze_orphaned_items db).total_orphaned_items
      = total_orphaned_items db := rfl
  unfold generate_safe_cleanup_commands
  rw [hd]
  simp only [Bool.false_eq_true, if_false]
  rw [if_neg]
  rw [htt]
  omega

theorem plan_eq_healthy (db : Db) (h1 : deleted_char_ids db = [])
    (h2 : analyze_cleanup_damage db = []) :
    generate_safe_cleanup_commands (analyze_orphaned_items db)
      = [no_cleanup_needed_command] := by
  have hd := detected_false_of_no_damage db h2
  have ht := total_orphaned_eq_zero db h1
  have htt : (analyze_orphaned_items db).total_orphaned_items
      = total_orphaned_items db := rfl
  unfold generate_safe_cleanup_commands
  rw [hd]
  simp only [Bool.false_eq_true, if_false]
  rw [if_pos]
  rw [htt, ht]

theorem menu_step_inv (a : Analysis) (cmds : List CleanupCommand)
    (s : MenuState) (n : ℕ) (h : menuInv a s) :
    menuInv a (menu_step cmds s n) := by
  cases s with
  | menu =>
    match n with
    | 0 => trivial
    | Nat.succ m =>
      simp only [menu_step]
      cases hc : cmds[m]? with
      | none => exact h
      | some c =>
        by_cases hw : c.warning.isSome
        · simp only [hw, if_true]
          exact h
        · by_cases ht : c.tier = .dangerous
          · simp only [hw, ht, Bool.false_eq_true, if_false, if_true]
            exact h
          · simp only [hw, ht, Bool.false_eq_true, if_false]
            exact ⟨h, ht⟩
  | details c =>
    simp only [menu_step]
    by_cases h1 : n = 1
    · simp only [h1, if_pos]
      exact h
    · rw [if_neg h1]
      by_cases h2 : n = 2
      · rw [if_pos h2]
        exact h.1
      · rw [if_neg h2]
        by_cases h3 : n = 3
        · rw [if_pos h3]
          exact h.1
        · rw [if_neg h3]
          exact h
  | executing c =>
    exact h.1
  | exited =>
    trivial

theorem menu_foldl_inv (a : Analysis) (cmds : List CleanupCommand) :
    ∀ (inputs : List ℕ) (s : MenuState), menuInv a s →
      menuInv a (inputs.foldl (menu_step cmds) s)
  | [], _, h => h
  | n :: rest, s, h =>
    menu_foldl_inv a cmds rest (menu_step cmds s n) (menu_step_inv a cmds s n h)

theorem menu_run_inv (a : Analysis) (inputs : List ℕ) :
    menuInv a (menu_run a inputs) := by
  refine menu_foldl_inv a _ inputs (menu_init a) ?_
  unfold menu_init
  split
  · trivial
  · next hd => simpa using hd

/-! Claim theorems. -/

/-- C1, counterexample.  In `exampleDbOverlap` (characters `{5}`, structures
`{5}`, observed owner references `{0, 5}`) the classification of the item
analyzer does not behave as claimed: the active-character and structure classes
overlap at `5`, the class union is not the reference set minus `0`, and the
reserved reference `0` is not excluded — it lands in the orphaned class. -/
theorem ownership_partition_counterexample :
    (¬ (((char_owned_refs exampleDbOverlap).toFinset
          ∩ (structure_owned_refs exampleDbOverlap).toFinset = ∅)
        ∧ ((char_owned_refs exampleDbOverlap).toFinset
            ∪ (structure_owned_refs exampleDbOverlap).toFinset
            ∪ (spec_guild_owned_refs exampleDbOverlap).toFinset
            ∪ (deleted_char_ids exampleDbOverlap).toFinset
          = (all_owner_ids exampleDbOverlap).toFinset \ {0})))
    ∧ (0:ℤ) ∈ deleted_char_ids exampleDbOverlap := by
  refine ⟨?_, by decide⟩
  intro h
  have h5 : (5:ℤ) ∈ (char_owned_refs exampleDbOverlap).toFinset
      ∩ (structure_owned_refs exampleDbOverlap).toFinset := by decide
  rw [h.1] at h5
  exact absurd h5 (Finset.not_mem_empty 5)

/-- C1, amended.  The item analyzer computes three classes, not four (no guild
class exists), and gives reference `0` no special treatment.  Whenever the
character-id and structure-id sets are disjoint, the three classes
(character-owned, structure-owned, orphaned) are pairwise disjoint and their
union is the full observed owner-reference set — `0` included when observed. -/
theorem ownership_partition_amended (db : Db)
    (hdisj : ∀ x ∈ existing_chars db, x ∉ existing_structures db) :
    ((char_owned_refs db).toFinset ∩ (structure_owned_refs db).toFinset = ∅)
    ∧ ((char_owned_refs db).toFinset ∩ (deleted_char_ids db).toFinset = ∅)
    ∧ ((structure_owned_refs db).toFinset ∩ (deleted_char_ids db).toFinset = ∅)
    ∧ ((char_owned_refs db).toFinset ∪ (structure_owned_refs db).toFinset
        ∪ (deleted_char_ids db).toFinset = (all_owner_ids db).toFinset) := by
  refine ⟨?_, ?_, ?_, ?_⟩
  · rw [Finset.eq_empty_iff_forall_not_mem]
    intro a ha
    rw [Finset.mem_inter, List.mem_toFinset, List.mem_toFinset,
      mem_char_owned_refs, mem_structure_owned_refs] at ha
    exact hdisj a ha.1.2 ha.2.2
  · rw [Finset.eq_empty_iff_forall_not_mem]
    intro a ha
    rw [Finset.mem_inter, List.mem_toFinset, List.mem_toFinset,
      mem_char_owned_refs, mem_deleted_char_ids] at ha
    exact ha.2.2.1 ha.1.2
  · rw [Finset.eq_empty_iff_forall_not_mem]
    intro a ha
    rw [Finset.mem_inter, List.mem_toFinset, List.mem_toFinset,
      mem_structure_owned_refs, mem_deleted_char_ids] at ha
    exact ha.2.2.2 ha.1.2
  · ext a
    simp only [Finset.mem_union, List.mem_toFinset, mem_char_owned_refs,
      mem_structure_owned_refs, mem_deleted_char_ids]
    constructor
    · rintro ((h | h) | h) <;> exact h.1
    · intro h
      by_cases hC : a ∈ existing_chars db
      · exact Or.inl (Or.inl ⟨h, hC⟩)
      · by_cases hS : a ∈ existing_structures db
        · exact Or.inl (Or.inr ⟨h, hS⟩)
        · exact Or.inr ⟨h, hC, hS⟩

/-- C1, witness: the amended partition instantiated on `exampleDbOrphans`,
whose character ids `{1}` and structure ids `{100}` are disjoint. -/
theorem ownership_partition_witness :
    ((char_owned_refs exampleDbOrphans).toFinset
        ∩ (structure_owned_refs exampleDbOrphans).toFinset = ∅)
    ∧ ((char_owned_refs exampleDbOrphans).toFinset
        ∩ (deleted_char_ids exampleDbOrphans).toFinset = ∅)
    ∧ ((structure_owned_refs exampleDbOrphans).toFinset
        ∩ (deleted_char_ids exampleDbOrphans).toFinset = ∅)
    ∧ ((char_owned_refs exampleDbOrphans).toFinset
        ∪ (structure_owned_refs exampleDbOrphans).toFinset
        ∪ (deleted_char_ids exampleDbOrphans).toFinset
      = (all_owner_ids exampleDbOrphans).toFinset) :=
  ownership_partition_amended exampleDbOrphans (by decide)

/-- C2, counterexample.  In `exampleDbGuild` the owner reference `7` is a
valid guild id, yet the item analyzer classifies it as orphaned: guild ids are
never subtracted from the orphaned set (line 85 subtracts only characters and
structures). -/
theorem orphan_formula_counterexample :
    (7:ℤ) ∈ guild_ids exampleDbGuild
    ∧ (7:ℤ) ∈ deleted_char_ids exampleDbGuild := by
  decide

/-- C2, amended.  The item analyzer computes
`orphaned = owner_refs − character_ids − structure_ids` with no guild
subtraction, so a guild id that is neither a character nor a structure id is
classified orphaned there; only the separate building checker subtracts guild
ids (and the reserved reference `0`, but not structure ids), so only building
orphans never contain a valid guild id. -/
theorem orphan_formula_amended (db : Db) :
    ((deleted_char_ids db).toFinset
      = ((all_owner_ids db).toFinset \ (existing_chars db).toFinset)
          \ (existing_structures db).toFinset)
    ∧ ((building_orphan_refs db).toFinset
      = ((((building_owner_refs db).toFinset \ (existing_chars db).toFinset)
          \ (guild_ids db).toFinset) \ {0}))
    ∧ ∀ g ∈ guild_ids db, g ∉ building_orphan_refs db := by
  refine ⟨?_, ?_, ?_⟩
  · ext a
    simp only [List.mem_toFinset, Finset.mem_sdiff, mem_deleted_char_ids]
    tauto
  · ext a
    simp only [List.mem_toFinset, Finset.mem_sdiff, mem_building_orphan_refs,
      mem_building_owner_refs, Finset.mem_singleton]
    tauto
  · intro g hg hmem
    exact (mem_building_orphan_refs.mp hmem).2.2.1 hg

/-- C3 (confirmed).  If any active character is flagged by the damage
detector, the generated plan is exactly the single Blocked damage-control
action: the early return at line 383 suppresses every other action. -/
theorem damage_blocks_plan (db : Db) (p : AffectedPlayer)
    (hp : p ∈ analyze_cleanup_damage db) :
    generate_safe_cleanup_commands (analyze_orphaned_items db)
      = [damage_control_command]
    ∧ damage_control_command.tier = .blocked := by
  refine ⟨?_, rfl⟩
  have hd := detected_true_of_damage db p hp
  unfold generate_safe_cleanup_commands
  rw [hd]
  simp

/-- C3, witness: in `exampleDbDamaged` the active character holds only
personal-slot items and is flagged, so the plan is the single Blocked entry. -/
theorem damage_blocks_plan_witness :
    generate_safe_cleanup_commands (analyze_orphaned_items exampleDbDamaged)
      = [damage_control_command]
    ∧ damage_control_command.tier = .blocked :=
  damage_blocks_plan exampleDbDamaged examplePlayerDamaged (by decide)

/-- C4 (confirmed).  With a non-empty orphaned set and no damage detected the
plan is exactly Safe, Conservative, Dangerous in that order, the Dangerous
action is annotated with the structure-owned reference count, and the Safe
action with the orphaned item count. -/
theorem plan_three_ordered (db : Db)
    (h1 : deleted_char_ids db ≠ []) (h2 : analyze_cleanup_damage db = []) :
    generate_safe_cleanup_commands (analyze_orphaned_items db)
      = [safe_command (analyze_orphaned_items db), conservative_command,
         dangerous_command (analyze_orphaned_items db)]
    ∧ (generate_safe_cleanup_commands (analyze_orphaned_items db)).map (·.tier)
      = [.safe, .conservative, .dangerous]
    ∧ (dangerous_command (analyze_orphaned_items db)).estimated_row_count
      = some (structure_owned_refs db).length
    ∧ (safe_command (analyze_orphaned_items db)).estimated_row_count
      = some (total_orphaned_items db) := by
  have hplan := plan_eq_three db h1 h2
  refine ⟨hplan, ?_, rfl, rfl⟩
  rw [hplan]
  rfl

/-- C4, witness: `exampleDbOrphans` has orphaned reference `999`, no damage,
and one structure-owned reference. -/
theorem plan_three_ordered_witness :
    generate_safe_cleanup_commands (analyze_orphaned_items exampleDbOrphans)
      = [safe_command (analyze_orphaned_items exampleDbOrphans),
         conservative_command,
         dangerous_command (analyze_orphaned_items exampleDbOrphans)]
    ∧ (generate_safe_cleanup_commands
        (analyze_orphaned_items exampleDbOrphans)).map (·.tier)
      = [.safe, .conservative, .dangerous]
    ∧ (dangerous_command (analyze_orphaned_items exampleDbOrphans)).estimated_row_count
      = some (structure_owned_refs exampleDbOrphans).length
    ∧ (safe_command (analyze_orphaned_items exampleDbOrphans)).estimated_row_count
      = some (total_orphaned_items exampleDbOrphans) :=
  plan_three_ordered exampleDbOrphans (by decide) (by decide)

/-- C5 (confirmed).  An active (alive) character of a database whose character
table carries the queried columns is flagged suspected-damaged — an
`AffectedPlayer` entry for it appears in the detector output — exactly when it
has at least one personal-slot item, no external-storage-slot item and a
positive item total, or its item total is zero. -/
theorem damage_detector_iff (db : Db) (c : Character)
    (hc : c ∈ db.characters) (ha : c.isAlive = true)
    (hok : db.charTableOk = true) :
    (∃ p ∈ analyze_cleanup_damage db, mkAffected db c = some p)
      ↔ ((∃ it ∈ ownerItems db c.id, it.inv_type ∈ personal_inventory_types)
          ∧ ¬(∃ it ∈ ownerItems db c.id, it.inv_type ∈ external_storage_types)
          ∧ 0 < (ownerItems db c.id).length)
        ∨ (ownerItems db c.id).length = 0 := by
  rw [← mkAffected_isSome_iff db c]
  constructor
  · rintro ⟨p, _, hpeq⟩
    rw [hpeq]
    rfl
  · intro hs
    obtain ⟨p, hpeq⟩ := Option.isSome_iff_exists.mp hs
    refine ⟨p, ?_, hpeq⟩
    rw [analyze_cleanup_damage_ok db hok]
    exact List.mem_filterMap.mpr ⟨c, List.mem_filter.mpr ⟨hc, ha⟩, hpeq⟩

/-- C5, witness: the active character of `exampleDbDamaged` holds exactly one
personal-slot item and no external storage, and is flagged. -/
theorem damage_detector_iff_witness :
    ((∃ p ∈ analyze_cleanup_damage exampleDbDamaged,
        mkAffected exampleDbDamaged ⟨1, "Ana", 11, 500, true⟩ = some p)
      ↔ ((∃ it ∈ ownerItems exampleDbDamaged 1,
            it.inv_type ∈ personal_inventory_types)
          ∧ ¬(∃ it ∈ ownerItems exampleDbDamaged 1,
            it.inv_type ∈ external_storage_types)
          ∧ 0 < (ownerItems exampleDbDamaged 1).length)
        ∨ (ownerItems exampleDbDamaged 1).length = 0) :=
  damage_detector_iff exampleDbDamaged ⟨1, "Ana", 11, 500, true⟩
    (by decide) (by decide) (by decide)

/-- C6, counterexample.  For the orphaned-id input `{100, …, 109}` (10 ids in
one contiguous range) the flag is `false`, not `true` as claimed: the strict
comparison `1 < 10 / 10` fails. -/
theorem appears_sequential_counterexample :
    ¬ (reported_sequential
        (analyze_id_patterns [100, 101, 102, 103, 104, 105, 106, 107, 108, 109])
          = true
       ∧ reported_sequential (analyze_id_patterns [5, 50, 500, 5000, 50000])
          = false) := by
  intro h
  exact absurd h.1 (by
    simp only [analyze_id_patterns, analyzeSorted, reported_sequential,
      decide_rat_lt_div_ten]
    decide)

/-- C6, amended.  `appears_sequential = range_count < orphaned_count / 10` is
false for `{100, …, 109}` (1 range, 10 ids: `1 < 1.0` fails) and false for
`{5, 50, 500, 5000, 50000}` (5 ranges, 5 ids); one more consecutive id,
`{100, …, 110}`, makes it true (`1 < 1.1`). -/
theorem appears_sequential_values :
    reported_sequential
        (analyze_id_patterns [100, 101, 102, 103, 104, 105, 106, 107, 108, 109])
      = false
    ∧ reported_sequential (analyze_id_patterns [5, 50, 500, 5000, 50000])
      = false
    ∧ reported_sequential
        (analyze_id_patterns
          [100, 101, 102, 103, 104, 105, 106, 107, 108, 109, 110])
      = true := by
  refine ⟨?_, ?_, ?_⟩ <;>
    (simp only [analyze_id_patterns, analyzeSorted, reported_sequential,
      decide_rat_lt_div_ten]
     decide)

/-- C7, counterexample.  The analyzer reports only the first 10 ranges
(`ranges[:10]`, line 280): for the 11-singleton-range input
`{0, 2, 4, …, 20}` the reported decomposition misses `20`, so its union is not
the input set. -/
theorem id_range_truncation_counterexample :
    (20:ℤ) ∈ ([0, 2, 4, 6, 8, 10, 12, 14, 16, 18, 20] : List ℤ).toFinset
    ∧ (20:ℤ) ∉ rangeSet (reported_ranges
        (analyze_id_patterns [0, 2, 4, 6, 8, 10, 12, 14, 16, 18, 20]))
    ∧ rangeSet (reported_ranges
        (analyze_id_patterns [0, 2, 4, 6, 8, 10, 12, 14, 16, 18, 20]))
      ≠ ([0, 2, 4, 6, 8, 10, 12, 14, 16, 18, 20] : List ℤ).toFinset := by
  have h1 : (20:ℤ) ∈ ([0, 2, 4, 6, 8, 10, 12, 14, 16, 18, 20] : List ℤ).toFinset := by
    decide
  have h2 : (20:ℤ) ∉ rangeSet (reported_ranges
      (analyze_id_patterns [0, 2, 4, 6, 8, 10, 12, 14, 16, 18, 20])) := by
    decide
  exact ⟨h1, h2, fun h => h2 (by rw [h]; exact h1)⟩

/-- C7, amended.  The full range decomposition computed from any duplicate-free
orphaned-id list is sorted ascending, non-overlapping and non-adjacent
(consecutive ranges separated by a gap), each range is well-formed, and its
union is exactly the input set; the analyzer however reports only the first 10
of these ranges, and for empty input it reports zero ranges with
`appears_sequential` read as false. -/
theorem id_range_decomposition_amended (ids : List ℤ) (hnd : ids.Nodup) :
    rangeSet (findRanges (List.insertionSort (· ≤ ·) ids)) = ids.toFinset
    ∧ (findRanges (List.insertionSort (· ≤ ·) ids)).Chain'
        (fun p q => p.2 + 1 < q.1)
    ∧ (∀ p ∈ findRanges (List.insertionSort (· ≤ ·) ids), p.1 ≤ p.2)
    ∧ reported_ranges (analyze_id_patterns ids)
        = (findRanges (List.insertionSort (· ≤ ·) ids)).take 10
    ∧ (ids = [] → reported_ranges (analyze_id_patterns ids) = []
        ∧ reported_sequential (analyze_id_patterns ids) = false) := by
  have hch := insertionSort_chain_lt ids hnd
  obtain ⟨hu, hc, hb⟩ := findRanges_spec _ hch
  refine ⟨?_, hc, hb, ?_, ?_⟩
  · rw [hu]
    exact List.toFinset_eq_of_perm _ _ (List.perm_insertionSort _ ids)
  · unfold analyze_id_patterns
    generalize List.insertionSort (· ≤ ·) ids = l
    cases l with
    | nil => simp [analyzeSorted, reported_ranges, findRanges]
    | cons x xs => simp [analyzeSorted, reported_ranges]
  · intro h
    subst h
    refine ⟨rfl, rfl⟩

/-- C7, witness: the amended decomposition instantiated on the singleton
orphaned-id list `[999]`. -/
theorem id_range_decomposition_witness :
    rangeSet (findRanges (List.insertionSort (· ≤ ·) [(999:ℤ)]))
      = ([(999:ℤ)] : List ℤ).toFinset
    ∧ (findRanges (List.insertionSort (· ≤ ·) [(999:ℤ)])).Chain'
        (fun p q => p.2 + 1 < q.1)
    ∧ (∀ p ∈ findRanges (List.insertionSort (· ≤ ·) [(999:ℤ)]), p.1 ≤ p.2)
    ∧ reported_ranges (analyze_id_patterns [(999:ℤ)])
        = (findRanges (List.insertionSort (· ≤ ·) [(999:ℤ)])).take 10
    ∧ (([(999:ℤ)] : List ℤ) = [] →
        reported_ranges (analyze_id_patterns [(999:ℤ)]) = []
        ∧ reported_sequential (analyze_id_patterns [(999:ℤ)]) = false) :=
  id_range_decomposition_amended [999] (by decide)

/-- C8 (confirmed).  With an empty orphaned set and no damaged player the plan
is exactly the single informational Safe entry stating no cleanup is needed. -/
theorem plan_healthy_single (db : Db) (h1 : deleted_char_ids db = [])
    (h2 : analyze_cleanup_damage db = []) :
    generate_safe_cleanup_commands (analyze_orphaned_items db)
      = [no_cleanup_needed_command]
    ∧ no_cleanup_needed_command.tier = .safe :=
  ⟨plan_eq_healthy db h1 h2, rfl⟩

/-- C8, witness: `exampleDbHealthy` has no orphaned references and an
undamaged character. -/
theorem plan_healthy_single_witness :
    generate_safe_cleanup_commands (analyze_orphaned_items exampleDbHealthy)
      = [no_cleanup_needed_command]
    ∧ no_cleanup_needed_command.tier = .safe :=
  plan_healthy_single exampleDbHealthy (by decide) (by decide)

/-- C9 (confirmed).  In every state reachable by the interactive
plan/select/confirm/execute sequence, a command passed to the execution routine
is never Dangerous-tier, and when the plan was blocked by detected damage the
execution routine is never reached at all. -/
theorem dangerous_never_executed (a : Analysis) (inputs : List ℕ)
    (c : CleanupCommand) (h : menu_run a inputs = .executing c) :
    c.tier ≠ .dangerous ∧ a.cleanup_damage_detected = false := by
  have hinv := menu_run_inv a inputs
  rw [h] at hinv
  exact ⟨hinv.2, hinv.1⟩

/-- C9, witness: the operator selects option 1 (the Safe action) and confirms
execution; the executed action is Safe-tier and the plan was not blocked. -/
theorem dangerous_never_executed_witness :
    (safe_command (analyze_orphaned_items exampleDbOrphans)).tier ≠ .dangerous
    ∧ (analyze_orphaned_items exampleDbOrphans).cleanup_damage_detected
        = false :=
  dangerous_never_executed (analyze_orphaned_items exampleDbOrphans) [1, 1]
    (safe_command (analyze_orphaned_items exampleDbOrphans)) (by decide)

/-- C10 (confirmed).  When the damage-detection query fails (character table
lacking a queried column), `analyze_cleanup_damage` returns the empty list, the
damage-detected flag is false, and the full non-blocked plan is still offered:
the three-action plan when orphans exist, the healthy single entry otherwise. -/
theorem failed_damage_analysis_never_blocks (db : Db)
    (h : db.charTableOk = false) :
    analyze_cleanup_damage db = []
    ∧ (analyze_orphaned_items db).cleanup_damage_detected = false
    ∧ (deleted_char_ids db ≠ [] →
        generate_safe_cleanup_commands (analyze_orphaned_items db)
          = [safe_command (analyze_orphaned_items db), conservative_command,
             dangerous_command (analyze_orphaned_items db)])
    ∧ (deleted_char_ids db = [] →
        generate_safe_cleanup_commands (analyze_orphaned_items db)
          = [no_cleanup_needed_command]) := by
  have hnil : analyze_cleanup_damage db = [] := by
    unfold analyze_cleanup_damage damage_query
    rw [h]
    simp
  exact ⟨hnil, detected_false_of_no_damage db hnil,
    fun h1 => plan_eq_three db h1 hnil, fun h1 => plan_eq_healthy db h1 hnil⟩

/-- C10, witness: `exampleDbNoSchema` has no usable character-table columns
and one orphaned reference; the three-action plan is still generated. -/
theorem failed_damage_analysis_never_blocks_witness :
    analyze_cleanup_damage exampleDbNoSchema = []
    ∧ (analyze_orphaned_items exampleDbNoSchema).cleanup_damage_detected = false
    ∧ (deleted_char_ids exampleDbNoSchema ≠ [] →
        generate_safe_cleanup_commands (analyze_orphaned_items exampleDbNoSchema)
          = [safe_command (analyze_orphaned_items exampleDbNoSchema),
             conservative_command,
             dangerous_command (analyze_orphaned_items exampleDbNoSchema)])
    ∧ (deleted_char_ids exampleDbNoSchema = [] →
        generate_safe_cleanup_commands (analyze_orphaned_items exampleDbNoSchema)
          = [no_cleanup_needed_command]) :=
  failed_damage_analysis_never_blocks exampleDbNoSchema (by decide)

end ConanDb
